import Mathlib

/-!
Shallow embedding of the system-health backend (`src/app.js`).

Modelling conventions:
* JS numbers are modelled as exact rationals `ℚ`; a raw provider field that
  may be missing or non-numeric is an `Option ℚ` (`none` = missing, not a
  number, or `NaN` after `Number(...)` coercion).
* The JS idiom `Number(x) || 0` is `numOr0`.
* JS arrays holding the rolling histories are mutable objects that the
  assembled payload references (not copies).  We model the eight history
  arrays as a store (`HistStore`) addressed by `HistKey`; a payload's
  `history` fields hold the key (the reference), and the array contents
  live in the server state.
* `async` provider reads are modelled by their resolved data (`Readings`);
  a rejected `Promise.all` batch is modelled by `Except.error`, which the
  sampling loop catches.
* The ISO date string `currentDateTimeISO` (a pure formatting of `now`) is
  omitted from the payload model; no claim concerns it.
-/

namespace SysHealth

/-- The JS coercion `Number(x) || 0`: a missing / non-numeric field becomes
`0`; a numeric field is unchanged (`0 || 0` is `0`). -/
def numOr0 : Option ℚ → ℚ
  | some q => q
  | none => 0

@[simp] theorem numOr0_some (q : ℚ) : numOr0 (some q) = q := rfl

@[simp] theorem numOr0_none : numOr0 none = 0 := rfl

/-- `const clamp = (n, min, max) => Math.min(Math.max(n, min), max);` -/
def clamp (n lo hi : ℚ) : ℚ := min (max n lo) hi

/-- `const bytesToMB = (b) => (typeof b === "number" ? b / (1024 * 1024) : 0);` -/
def bytesToMB : Option ℚ → ℚ
  | some b => b / (1024 * 1024)
  | none => 0

/-- `function pushRolling(arr, item) { arr.push(item); if (arr.length > HISTORY_POINTS) arr.shift(); }`
`N` is the `HISTORY_POINTS` configuration constant. -/
def pushRolling (N : ℕ) (arr : List α) (item : α) : List α :=
  let a := arr ++ [item]
  if a.length > N then a.tail else a

/-- `formatUptime`: `"D Days, H Hours, M Minutes"` from a seconds count
(`Math.max(0, Math.floor(seconds || 0))`, then integer division). -/
def formatUptime (seconds : ℚ) : String :=
  let s : ℕ := (max 0 ⌊seconds⌋).toNat
  let days := s / 86400
  let hours := (s % 86400) / 3600
  let mins := (s % 3600) / 60
  toString days ++ " Days, " ++ toString hours ++ " Hours, " ++ toString mins ++ " Minutes"

/-- A point of a rolling history: `{ t: epochMs, v: number }`. -/
structure MetricPoint where
  t : ℤ
  v : ℚ
deriving DecidableEq, Repr

/-- Names of the eight module-level history arrays (`history.cpuLoad`, ...).
A value of this type plays the role of a JS reference to the array object. -/
inductive HistKey where
  | cpuLoad
  | cpuTempC
  | memUsedPercent
  | diskReadMBps
  | diskWriteMBps
  | netDownMBps
  | netUpMBps
  | cpuAvgGHz
deriving DecidableEq, Repr

/-- The module-level `history` object: one rolling array per tracked metric. -/
structure HistStore where
  cpuLoad : List MetricPoint := []
  cpuTempC : List MetricPoint := []
  memUsedPercent : List MetricPoint := []
  diskReadMBps : List MetricPoint := []
  diskWriteMBps : List MetricPoint := []
  netDownMBps : List MetricPoint := []
  netUpMBps : List MetricPoint := []
  cpuAvgGHz : List MetricPoint := []
deriving DecidableEq, Repr

/-- Dereference a history-array reference in the store. -/
def HistStore.get (h : HistStore) : HistKey → List MetricPoint
  | .cpuLoad => h.cpuLoad
  | .cpuTempC => h.cpuTempC
  | .memUsedPercent => h.memUsedPercent
  | .diskReadMBps => h.diskReadMBps
  | .diskWriteMBps => h.diskWriteMBps
  | .netDownMBps => h.netDownMBps
  | .netUpMBps => h.netUpMBps
  | .cpuAvgGHz => h.cpuAvgGHz

/-! ### Provider readings (resolved values of the `si.*` reads) -/

/-- Resolved value of `si.currentLoad()`. -/
structure CpuLoadReading where
  currentLoad : Option ℚ
  cpus : List (Option ℚ)
deriving DecidableEq, Repr

/-- Resolved value of `si.cpuCurrentSpeed()`. -/
structure CpuSpeedReading where
  min : Option ℚ
  avg : Option ℚ
  max : Option ℚ
deriving DecidableEq, Repr

/-- Resolved value of `si.cpuTemperature()`; `cores = none` models a
non-array `cores` field. -/
structure CpuTempReading where
  main : Option ℚ
  cores : Option (List (Option ℚ))
deriving DecidableEq, Repr

/-- Resolved value of `si.mem()`. -/
structure MemReading where
  total : Option ℚ
  used : Option ℚ
deriving DecidableEq, Repr

/-- One entry of `si.fsSize()`; a field is `none` when it is not
`typeof === "number"` (a falsy entry is modelled by both fields `none`). -/
structure FsEntry where
  size : Option ℚ
  used : Option ℚ
deriving DecidableEq, Repr

/-- Resolved value of `si.disksIO()`. -/
structure DiskIoReading where
  rBytes : Option ℚ
  wBytes : Option ℚ
deriving DecidableEq, Repr

/-- One interface entry of `si.networkStats()`. -/
structure NetIfReading where
  rx_bytes : Option ℚ
  tx_bytes : Option ℚ
deriving DecidableEq, Repr

/-- Resolved value of `si.time()`. -/
structure TimeReading where
  uptime : Option ℚ
deriving DecidableEq, Repr

/-- One entry of `si.processes().list`. -/
structure RawProc where
  pid : ℤ
  name : Option String
  command : Option String
  cpu : Option ℚ
  mem_rss : Option ℚ
deriving DecidableEq, Repr

/-- The resolved results of the whole concurrent provider-read batch
(`Promise.all([...])` in `collectSnapshot`). -/
structure Readings where
  cpuLoad : CpuLoadReading
  cpuSpeed : CpuSpeedReading
  cpuTemp : CpuTempReading
  mem : MemReading
  fsList : List FsEntry
  diskIo : DiskIoReading
  nets : List NetIfReading
  time : TimeReading
  procs : List RawProc
deriving DecidableEq, Repr

/-! ### Payload (the Snapshot) -/

/-- Normalized process entry: `{pid, name, cpuPercent, ramMB}`. -/
structure ProcessSample where
  pid : ℤ
  name : String
  cpuPercent : ℚ
  ramMB : ℚ
deriving DecidableEq, Repr

structure CpuLoadOut where
  overallPercent : ℚ
  perCorePercent : List ℚ
  history : HistKey
deriving DecidableEq, Repr

structure CpuSpeedOut where
  minGHz : ℚ
  avgGHz : ℚ
  maxGHz : ℚ
  historyAvgGHz : HistKey
deriving DecidableEq, Repr

structure CpuTempOut where
  mainC : Option ℚ
  coreTempsC : List ℚ
  historyMainC : HistKey
  targetC : ℚ
deriving DecidableEq, Repr

structure MemoryOut where
  totalGB : ℚ
  usedGB : ℚ
  usedPercent : ℚ
  freePercent : ℚ
  historyUsedPercent : HistKey
deriving DecidableEq, Repr

structure DiskUsageOut where
  usedPercent : ℚ
  freePercent : ℚ
  totalGB : ℚ
  usedGB : ℚ
deriving DecidableEq, Repr

structure DiskActivityOut where
  readMBps : ℚ
  writeMBps : ℚ
  historyReadMBps : HistKey
  historyWriteMBps : HistKey
deriving DecidableEq, Repr

structure NetworkOut where
  downMBps : ℚ
  upMBps : ℚ
  historyDownMBps : HistKey
  historyUpMBps : HistKey
deriving DecidableEq, Repr

structure UptimeOut where
  uptimeSeconds : ℚ
  uptimeHuman : String
deriving DecidableEq, Repr

structure MetaOut where
  sampleIntervalMs : ℚ
  historyPoints : ℕ
deriving DecidableEq, Repr

/-- The assembled payload (Snapshot).  History fields are references
(`HistKey`) into the server's `HistStore`, mirroring the JS payload holding
references to the module-level arrays. -/
structure Payload where
  timestampMs : ℤ
  cpuLoad : CpuLoadOut
  cpuSpeed : CpuSpeedOut
  cpuTemp : CpuTempOut
  memory : MemoryOut
  diskUsage : DiskUsageOut
  diskActivity : DiskActivityOut
  network : NetworkOut
  topProcesses : List ProcessSample
  uptime : UptimeOut
  meta : MetaOut
deriving DecidableEq, Repr

/-! ### Mutable server state -/

/-- `prevDiskStats = { rBytes, wBytes, at: now }`. -/
structure DiskCounters where
  rBytes : ℚ
  wBytes : ℚ
  at' : ℤ
deriving DecidableEq, Repr

/-- `prevNetStats = { rxBytes, txBytes, at: now }`. -/
structure NetCounters where
  rxBytes : ℚ
  txBytes : ℚ
  at' : ℤ
deriving DecidableEq, Repr

/-- Module-level mutable state of the server. -/
structure ServerState where
  history : HistStore
  lastPayload : Option Payload
  prevDiskStats : Option DiskCounters
  prevNetStats : Option NetCounters
  prevSampleAt : ℤ
deriving DecidableEq, Repr

/-- Environment configuration: `SAMPLE_INTERVAL_MS` and `HISTORY_POINTS`. -/
structure Config where
  sampleIntervalMs : ℚ
  historyPoints : ℕ
deriving DecidableEq, Repr

/-- State at module load: empty histories, no payload, no counter baselines,
`prevSampleAt = Date.now()`. -/
def initState (startMs : ℤ) : ServerState :=
  { history := {}
    lastPayload := none
    prevDiskStats := none
    prevNetStats := none
    prevSampleAt := startMs }

/-! ### Data collection -/

/-- JS `a || b` on strings: empty (falsy) or missing falls through. -/
def strOr (a : Option String) (b : String) : String :=
  match a with
  | some s => if s = "" then b else s
  | none => b

/-- The per-process normalization inside `getTopProcesses`:
`{ pid, name: proc.name || proc.command || `pid:...`,
   cpuPercent: clamp(Number(proc.cpu) || 0, 0, 100),
   ramMB: Math.max(0, Number(proc.mem_rss) ? bytesToMB(proc.mem_rss) : 0) }`. -/
def normalizeProc (proc : RawProc) : ProcessSample :=
  { pid := proc.pid
    name := strOr proc.name (strOr proc.command ("pid:" ++ toString proc.pid))
    cpuPercent := clamp (numOr0 proc.cpu) 0 100
    ramMB := max 0 (if numOr0 proc.mem_rss ≠ 0 then bytesToMB proc.mem_rss else 0) }

/-- The sort order of `list.sort((a, b) => b.cpuPercent - a.cpuPercent)`:
`a` may precede `b` iff the comparator is `≤ 0`, i.e. CPU percent descending. -/
def procLE (a b : ProcessSample) : Bool := decide (b.cpuPercent ≤ a.cpuPercent)

/-- `getTopProcesses`: normalize each entry of `p.list`, stable-sort by CPU
percent descending (ES2019 `Array.prototype.sort` is stable; `mergeSort` is
the stable sort with the same order), take the first 5. -/
def getTopProcesses (procList : List RawProc) : List ProcessSample :=
  ((procList.map normalizeProc).mergeSort procLE).take 5

/-- Return shape of `getDiskUsagePercent`. -/
structure DiskUsageResult where
  usedBytes : ℚ
  totalBytes : ℚ
  usedPercent : ℚ
deriving DecidableEq, Repr

/-- `getDiskUsagePercent`: sum `used`/`size` over filesystem entries whose
fields are numbers; percent is guarded by `size > 0` (else `0`). -/
def getDiskUsagePercent (fsList : List FsEntry) : DiskUsageResult :=
  let acc := fsList.foldl
    (fun (acc : ℚ × ℚ) d =>
      match d.size, d.used with
      | some size, some used => (acc.1 + used, acc.2 + size)
      | _, _ => acc)
    (0, 0)
  let used := acc.1
  let size := acc.2
  { usedBytes := used
    totalBytes := size
    usedPercent := if size > 0 then clamp ((used / size) * 100) 0 100 else 0 }

structure DiskThroughput where
  readMBps : ℚ
  writeMBps : ℚ
deriving DecidableEq, Repr

structure NetThroughput where
  downMBps : ℚ
  upMBps : ℚ
deriving DecidableEq, Repr

/-- `getDiskThroughputMBps(now, dtSec)`: reads `si.disksIO()`, derives
MB/s rates from the previous cumulative counters (clamped at 0), and
returns the new `prevDiskStats` (the function mutates the module variable;
here the new value is returned alongside). -/
def getDiskThroughputMBps (prevDiskStats : Option DiskCounters)
    (ioStats : DiskIoReading) (now : ℤ) (dtSec : ℚ) :
    DiskThroughput × DiskCounters :=
  let rBytes := numOr0 ioStats.rBytes
  let wBytes := numOr0 ioStats.wBytes
  let rates : DiskThroughput :=
    match prevDiskStats with
    | some prev =>
      if dtSec > 0 then
        { readMBps := max 0 (bytesToMB (some (rBytes - prev.rBytes)) / dtSec)
          writeMBps := max 0 (bytesToMB (some (wBytes - prev.wBytes)) / dtSec) }
      else
        { readMBps := 0, writeMBps := 0 }
    | none => { readMBps := 0, writeMBps := 0 }
  (rates, { rBytes := rBytes, wBytes := wBytes, at' := now })

/-- `rxBytes += Number(n.rx_bytes) || 0` summed over interfaces. -/
def sumRxBytes (nets : List NetIfReading) : ℚ :=
  nets.foldl (fun acc n => acc + numOr0 n.rx_bytes) 0

/-- `txBytes += Number(n.tx_bytes) || 0` summed over interfaces. -/
def sumTxBytes (nets : List NetIfReading) : ℚ :=
  nets.foldl (fun acc n => acc + numOr0 n.tx_bytes) 0

/-- `getNetworkThroughputMBps(now, dtSec)`: sums cumulative interface
counters, derives MB/s rates from the previous sums (clamped at 0), and
returns the new `prevNetStats`. -/
def getNetworkThroughputMBps (prevNetStats : Option NetCounters)
    (nets : List NetIfReading) (now : ℤ) (dtSec : ℚ) :
    NetThroughput × NetCounters :=
  let rxBytes := sumRxBytes nets
  let txBytes := sumTxBytes nets
  let rates : NetThroughput :=
    match prevNetStats with
    | some prev =>
      if dtSec > 0 then
        { downMBps := max 0 (bytesToMB (some (rxBytes - prev.rxBytes)) / dtSec)
          upMBps := max 0 (bytesToMB (some (txBytes - prev.txBytes)) / dtSec) }
      else
        { downMBps := 0, upMBps := 0 }
    | none => { downMBps := 0, upMBps := 0 }
  (rates, { rxBytes := rxBytes, txBytes := txBytes, at' := now })

/-- `const dtSec = Math.max(0.001, (now - prevSampleAt) / 1000);` -/
def cycleDtSec (prevSampleAt now : ℤ) : ℚ :=
  max (1 / 1000) (((now - prevSampleAt : ℤ) : ℚ) / 1000)

/-- `collectSnapshot()`.  `batch` is the outcome of the concurrent
provider-read batch: `Except.error` models a rejected `Promise.all`
(rethrown to the caller).  `prevSampleAt` is updated before the batch is
awaited, so it is updated even on a rejected batch.  On success the
payload is assembled, stored in `lastPayload` and returned. -/
def collectSnapshot (cfg : Config) (st : ServerState) (now : ℤ)
    (batch : Except String Readings) : Except String Payload × ServerState :=
  let dtSec := cycleDtSec st.prevSampleAt now
  match batch with
  | .error e => (.error e, { st with prevSampleAt := now })
  | .ok r =>
    let (diskThroughput, prevDisk) := getDiskThroughputMBps st.prevDiskStats r.diskIo now dtSec
    let (netThroughput, prevNet) := getNetworkThroughputMBps st.prevNetStats r.nets now dtSec
    let diskUsage := getDiskUsagePercent r.fsList
    let topProcs := getTopProcesses r.procs
    let perCore := r.cpuLoad.cpus.map (fun c => clamp (numOr0 c) 0 100)
    let overall := clamp (numOr0 r.cpuLoad.currentLoad) 0 100
    let minGHz := max 0 (numOr0 r.cpuSpeed.min)
    let avgGHz := max 0 (numOr0 r.cpuSpeed.avg)
    let maxGHz := max 0 (numOr0 r.cpuSpeed.max)
    let mainTemp : Option ℚ :=
      match r.cpuTemp.main with
      | some t => if t ≥ 0 then some t else none
      | none => none
    let coreTemps : List ℚ :=
      match r.cpuTemp.cores with
      | some cs =>
        cs.filterMap (fun t =>
          match t with
          | some q => if q ≥ 0 then some q else none
          | none => none)
      | none => []
    let totalBytes := numOr0 r.mem.total
    let usedBytes := numOr0 r.mem.used
    let usedPercent :=
      if totalBytes > 0 then clamp ((usedBytes / totalBytes) * 100) 0 100 else 0
    let diskUsedPercent := clamp diskUsage.usedPercent 0 100
    let readMBps := max 0 diskThroughput.readMBps
    let writeMBps := max 0 diskThroughput.writeMBps
    let downMBps := max 0 netThroughput.downMBps
    let upMBps := max 0 netThroughput.upMBps
    let uptimeSeconds := numOr0 r.time.uptime
    let N := cfg.historyPoints
    let h := st.history
    let newHist : HistStore :=
      { cpuLoad := pushRolling N h.cpuLoad ⟨now, overall⟩
        cpuTempC :=
          match mainTemp with
          | some t => pushRolling N h.cpuTempC ⟨now, t⟩
          | none => h.cpuTempC
        memUsedPercent := pushRolling N h.memUsedPercent ⟨now, usedPercent⟩
        diskReadMBps := pushRolling N h.diskReadMBps ⟨now, readMBps⟩
        diskWriteMBps := pushRolling N h.diskWriteMBps ⟨now, writeMBps⟩
        netDownMBps := pushRolling N h.netDownMBps ⟨now, downMBps⟩
        netUpMBps := pushRolling N h.netUpMBps ⟨now, upMBps⟩
        cpuAvgGHz := pushRolling N h.cpuAvgGHz ⟨now, avgGHz⟩ }
    let payload : Payload :=
      { timestampMs := now
        cpuLoad :=
          { overallPercent := overall
            perCorePercent := perCore
            history := .cpuLoad }
        cpuSpeed :=
          { minGHz := minGHz
            avgGHz := avgGHz
            maxGHz := maxGHz
            historyAvgGHz := .cpuAvgGHz }
        cpuTemp :=
          { mainC := mainTemp
            coreTempsC := coreTemps
            historyMainC := .cpuTempC
            targetC := 80 }
        memory :=
          { totalGB := totalBytes / 1024 ^ 3
            usedGB := usedBytes / 1024 ^ 3
            usedPercent := usedPercent
            freePercent := clamp (100 - usedPercent) 0 100
            historyUsedPercent := .memUsedPercent }
        diskUsage :=
          { usedPercent := diskUsedPercent
            freePercent := clamp (100 - diskUsedPercent) 0 100
            totalGB := diskUsage.totalBytes / 1024 ^ 3
            usedGB := diskUsage.usedBytes / 1024 ^ 3 }
        diskActivity :=
          { readMBps := readMBps
            writeMBps := writeMBps
            historyReadMBps := .diskReadMBps
            historyWriteMBps := .diskWriteMBps }
        network :=
          { downMBps := downMBps
            upMBps := upMBps
            historyDownMBps := .netDownMBps
            historyUpMBps := .netUpMBps }
        topProcesses := topProcs
        uptime :=
          { uptimeSeconds := uptimeSeconds
            uptimeHuman := formatUptime uptimeSeconds }
        meta :=
          { sampleIntervalMs := cfg.sampleIntervalMs
            historyPoints := cfg.historyPoints } }
    (.ok payload,
      { history := newHist
        lastPayload := some payload
        prevDiskStats := some prevDisk
        prevNetStats := some prevNet
        prevSampleAt := now })

/-! ### Transport surface -/

/-- Events emitted on the socket channel. -/
inductive Event where
  | healthUpdate (payload : Payload)
  | healthError (message : String) (detail : Option String)
deriving DecidableEq, Repr

/-- The `socket.on("health:request", ...)` handler. -/
def healthRequest (st : ServerState) : Event :=
  match st.lastPayload with
  | some p => .healthUpdate p
  | none => .healthError "No data yet." none

/-- The emission on a new connection (immediate snapshot if one exists). -/
def onConnection (st : ServerState) : Option Event :=
  match st.lastPayload with
  | some p => some (.healthUpdate p)
  | none => none

/-- The 1-second re-publish timer: republishes `lastPayload` if present. -/
def heartbeatTick (st : ServerState) : Option Event :=
  match st.lastPayload with
  | some p => some (.healthUpdate p)
  | none => none

/-- Body of an HTTP response of `GET /api/health/latest`. -/
inductive HttpBody where
  | snapshotBody (p : Payload)
  | errorBody (ok : Bool) (message : String)
deriving DecidableEq, Repr

structure HttpResponse where
  status : ℕ
  body : HttpBody
deriving DecidableEq, Repr

/-- The `GET /api/health/latest` handler. -/
def apiHealthLatest (st : ServerState) : HttpResponse :=
  match st.lastPayload with
  | none => { status := 503, body := .errorBody false "No data yet." }
  | some p => { status := 200, body := .snapshotBody p }

/-- One iteration of the `setInterval` body in `startSampling`: collect,
emit `health:update` on success, emit `health:error` on a thrown
(rejected-batch) failure. -/
def sampleTick (cfg : Config) (st : ServerState) (now : ℤ)
    (batch : Except String Readings) : ServerState × Event :=
  match collectSnapshot cfg st now batch with
  | (.ok payload, st') => (st', .healthUpdate payload)
  | (.error e, st') => (st', .healthError "Sampling failed" (some e))

/-! ### Rolling-window lemmas -/

theorem pushRolling_eq_drop {α : Type} (N : ℕ) (arr : List α) (x : α)
    (h : arr.length ≤ N) :
    pushRolling N arr x = (arr ++ [x]).drop (arr.length + 1 - N) := by
  unfold pushRolling
  simp only [List.length_append, List.length_cons, List.length_nil]
  by_cases hc : N < arr.length + 1
  · have hN : arr.length = N := by omega
    rw [if_pos (by omega)]
    have h1 : arr.length + 1 - N = 1 := by omega
    rw [h1, List.drop_one]
  · rw [if_neg (by omega)]
    have h0 : arr.length + 1 - N = 0 := by omega
    rw [h0, List.drop_zero]

theorem foldl_pushRolling_eq_drop {α : Type} (N : ℕ) (xs : List α) :
    xs.foldl (pushRolling N) [] = xs.drop (xs.length - N) := by
  induction xs using List.reverseRecOn with
  | nil => simp
  | append_singleton ys y ih =>
    rw [List.foldl_append, List.foldl_cons, List.foldl_nil, ih]
    have hlen : (ys.drop (ys.length - N)).length ≤ N := by
      rw [List.length_drop]; omega
    rw [pushRolling_eq_drop N _ y hlen]
    rw [← List.drop_append_of_le_length (show ys.length - N ≤ ys.length by omega)]
    rw [List.drop_drop, List.length_drop, List.length_append, List.length_cons,
      List.length_nil]
    congr 1
    omega

/-- Claim C2: starting from the empty array, after any sequence of pushes via
`pushRolling` with capacity `N`, the length is at most `N`; after more than
`N` pushes the array holds exactly the most recent `N` pushed points in
insertion order. -/
theorem rolling_window_bounded (N : ℕ) (xs : List MetricPoint) :
    (xs.foldl (pushRolling N) []).length ≤ N ∧
    (N < xs.length →
      xs.foldl (pushRolling N) [] = xs.drop (xs.length - N) ∧
      (xs.foldl (pushRolling N) []).length = N) := by
  have h := foldl_pushRolling_eq_drop N xs
  refine ⟨by rw [h, List.length_drop]; omega, fun hK => ⟨h, ?_⟩⟩
  rw [h, List.length_drop]
  omega

/-- Witness for C2 at the spec's end-to-end scenario: capacity 3, five pushes
with values 10, 20, 30, 40, 50 leave exactly the points for 30, 40, 50. -/
theorem rolling_window_bounded_witness :
    (3 : ℕ) < ([⟨1, 10⟩, ⟨2, 20⟩, ⟨3, 30⟩, ⟨4, 40⟩, ⟨5, 50⟩] : List MetricPoint).length ∧
    ([⟨1, 10⟩, ⟨2, 20⟩, ⟨3, 30⟩, ⟨4, 40⟩, ⟨5, 50⟩] : List MetricPoint).foldl
        (pushRolling 3) [] = [⟨3, 30⟩, ⟨4, 40⟩, ⟨5, 50⟩] := by
  have h := (rolling_window_bounded 3
    [⟨1, 10⟩, ⟨2, 20⟩, ⟨3, 30⟩, ⟨4, 40⟩, ⟨5, 50⟩]).2 (by decide)
  exact ⟨by decide, h.1.trans (by decide)⟩

/-! ### Rate-derivation lemmas -/

theorem rate_clamped_of_le (prevB curr dt : ℚ) (hdt : 0 < dt) (h : prevB ≤ curr) :
    max 0 (bytesToMB (some (curr - prevB)) / dt) = ((curr - prevB) / 1048576) / dt ∧
    0 ≤ max 0 (bytesToMB (some (curr - prevB)) / dt) := by
  have hnn : 0 ≤ ((curr - prevB) / (1024 * 1024)) / dt :=
    div_nonneg (div_nonneg (by linarith) (by norm_num)) hdt.le
  constructor
  · show max 0 ((curr - prevB) / (1024 * 1024) / dt) = _
    rw [max_eq_right hnn]
    norm_num
  · exact le_max_left 0 _

theorem rate_clamped_of_lt (prevB curr dt : ℚ) (hdt : 0 < dt) (h : curr < prevB) :
    max 0 (bytesToMB (some (curr - prevB)) / dt) = 0 := by
  have hnp : ((curr - prevB) / (1024 * 1024)) / dt ≤ 0 :=
    div_nonpos_of_nonpos_of_nonneg
      (div_nonpos_of_nonpos_of_nonneg (by linarith) (by norm_num)) hdt.le
  exact max_eq_left hnp

/-- Claim C1: for every disk and network rate derivation in a collection
cycle (where `dtSec = cycleDtSec _ _ > 0`): with a previous baseline and
current cumulative counter at least the previous one, the rate is
`((curr - prev) / 1048576) / dtSec` and is nonnegative; with the current
counter below the previous one the rate is `0`, never negative; with no
previous baseline (first-ever call), the rate is `0`. -/
theorem rate_derivation_correct (ioStats : DiskIoReading) (nets : List NetIfReading)
    (now : ℤ) (dtSec : ℚ) (hdt : 0 < dtSec) :
    (∀ prevAt nowArg : ℤ, 0 < cycleDtSec prevAt nowArg) ∧
    ((getDiskThroughputMBps none ioStats now dtSec).1 = ⟨0, 0⟩ ∧
      (getNetworkThroughputMBps none nets now dtSec).1 = ⟨0, 0⟩) ∧
    (∀ prev : DiskCounters,
      ((prev.rBytes ≤ numOr0 ioStats.rBytes →
        (getDiskThroughputMBps (some prev) ioStats now dtSec).1.readMBps =
          ((numOr0 ioStats.rBytes - prev.rBytes) / 1048576) / dtSec ∧
        0 ≤ (getDiskThroughputMBps (some prev) ioStats now dtSec).1.readMBps) ∧
       (numOr0 ioStats.rBytes < prev.rBytes →
        (getDiskThroughputMBps (some prev) ioStats now dtSec).1.readMBps = 0)) ∧
      ((prev.wBytes ≤ numOr0 ioStats.wBytes →
        (getDiskThroughputMBps (some prev) ioStats now dtSec).1.writeMBps =
          ((numOr0 ioStats.wBytes - prev.wBytes) / 1048576) / dtSec ∧
        0 ≤ (getDiskThroughputMBps (some prev) ioStats now dtSec).1.writeMBps) ∧
       (numOr0 ioStats.wBytes < prev.wBytes →
        (getDiskThroughputMBps (some prev) ioStats now dtSec).1.writeMBps = 0))) ∧
    (∀ prev : NetCounters,
      ((prev.rxBytes ≤ sumRxBytes nets →
        (getNetworkThroughputMBps (some prev) nets now dtSec).1.downMBps =
          ((sumRxBytes nets - prev.rxBytes) / 1048576) / dtSec ∧
        0 ≤ (getNetworkThroughputMBps (some prev) nets now dtSec).1.downMBps) ∧
       (sumRxBytes nets < prev.rxBytes →
        (getNetworkThroughputMBps (some prev) nets now dtSec).1.downMBps = 0)) ∧
      ((prev.txBytes ≤ sumTxBytes nets →
        (getNetworkThroughputMBps (some prev) nets now dtSec).1.upMBps =
          ((sumTxBytes nets - prev.txBytes) / 1048576) / dtSec ∧
        0 ≤ (getNetworkThroughputMBps (some prev) nets now dtSec).1.upMBps) ∧
       (sumTxBytes nets < prev.txBytes →
        (getNetworkThroughputMBps (some prev) nets now dtSec).1.upMBps = 0))) := by
  have hifd : ∀ p : DiskCounters,
      (getDiskThroughputMBps (some p) ioStats now dtSec).1 =
        { readMBps := max 0 (bytesToMB (some (numOr0 ioStats.rBytes - p.rBytes)) / dtSec)
          writeMBps := max 0 (bytesToMB (some (numOr0 ioStats.wBytes - p.wBytes)) / dtSec) } := by
    intro p
    simp only [getDiskThroughputMBps, if_pos hdt]
  have hifn : ∀ p : NetCounters,
      (getNetworkThroughputMBps (some p) nets now dtSec).1 =
        { downMBps := max 0 (bytesToMB (some (sumRxBytes nets - p.rxBytes)) / dtSec)
          upMBps := max 0 (bytesToMB (some (sumTxBytes nets - p.txBytes)) / dtSec) } := by
    intro p
    simp only [getNetworkThroughputMBps, if_pos hdt]
  refine ⟨?_, ⟨rfl, rfl⟩, ?_, ?_⟩
  · intro prevAt nowArg
    exact lt_max_of_lt_left (by norm_num)
  · intro prev
    rw [hifd prev]
    exact ⟨⟨fun h => rate_clamped_of_le _ _ _ hdt h,
            fun h => rate_clamped_of_lt _ _ _ hdt h⟩,
           ⟨fun h => rate_clamped_of_le _ _ _ hdt h,
            fun h => rate_clamped_of_lt _ _ _ hdt h⟩⟩
  · intro prev
    rw [hifn prev]
    exact ⟨⟨fun h => rate_clamped_of_le _ _ _ hdt h,
            fun h => rate_clamped_of_lt _ _ _ hdt h⟩,
           ⟨fun h => rate_clamped_of_le _ _ _ hdt h,
            fun h => rate_clamped_of_lt _ _ _ hdt h⟩⟩

/-- Witness for C1 at the spec's end-to-end scenario: cumulative bytes read
go 1,000,000 to 3,000,000 over 2 seconds, giving
`(2,000,000 / 1,048,576) / 2 = 15625 / 16384` MB/s (about 0.954). -/
theorem rate_derivation_correct_witness :
    (0 : ℚ) < 2 ∧
    ((1000000 : ℚ) ≤ 3000000 ∧
      (getDiskThroughputMBps (some ⟨1000000, 0, 0⟩)
          ⟨some 3000000, some 0⟩ 2000 2).1.readMBps = 15625 / 16384) := by
  have h := ((rate_derivation_correct ⟨some 3000000, some 0⟩ [] 2000 2
    (by norm_num)).2.2.1 ⟨1000000, 0, 0⟩).1.1 (by norm_num)
  exact ⟨by norm_num, by norm_num, h.1.trans (by norm_num [numOr0])⟩

/-! ### Concrete sample data for witnesses and counterexamples -/

/-- Default configuration: `SAMPLE_INTERVAL_MS = 1000`, `HISTORY_POINTS = 60`. -/
def cfg0 : Config := { sampleIntervalMs := 1000, historyPoints := 60 }

/-- A fully-populated provider reading. -/
def sampleReadings : Readings :=
  { cpuLoad := { currentLoad := some 50, cpus := [some 50] }
    cpuSpeed := { min := some 1, avg := some 2, max := some 3 }
    cpuTemp := { main := some 40, cores := some [some 40] }
    mem := { total := some 1000, used := some 500 }
    fsList := [{ size := some 1000, used := some 100 }]
    diskIo := { rBytes := some 0, wBytes := some 0 }
    nets := [{ rx_bytes := some 0, tx_bytes := some 0 }]
    time := { uptime := some 100000 }
    procs := [] }

/-- A provider batch where every individual read resolved without usable
data (every field missing / non-numeric, every list empty). -/
def allFailReadings : Readings :=
  { cpuLoad := { currentLoad := none, cpus := [] }
    cpuSpeed := { min := none, avg := none, max := none }
    cpuTemp := { main := none, cores := none }
    mem := { total := none, used := none }
    fsList := []
    diskIo := { rBytes := none, wBytes := none }
    nets := []
    time := { uptime := none }
    procs := [] }

/-- A reading whose CPU-temperature read resolved without usable data. -/
def tempFailReadings : Readings :=
  { sampleReadings with cpuTemp := { main := none, cores := none } }

/-! ### C3: snapshot isolation -/

/-- Counterexample to claim C3 as stated.  After a first collection cycle at
time 1000 returns a snapshot, a second cycle at time 2000 changes the
contents reachable through the first snapshot's `cpuLoad.history` reference:
the histories embedded in a returned snapshot are the live rolling arrays,
not point-in-time copies.  The second conjunct records that the first
snapshot's `cpuLoad.history` field is exactly the `cpuLoad` array
reference. -/
theorem snapshot_isolation_cex :
    ¬ ((collectSnapshot cfg0 (collectSnapshot cfg0 (initState 0) 1000
          (.ok sampleReadings)).2 2000 (.ok sampleReadings)).2.history.get HistKey.cpuLoad
        = (collectSnapshot cfg0 (initState 0) 1000
            (.ok sampleReadings)).2.history.get HistKey.cpuLoad) ∧
    ((collectSnapshot cfg0 (initState 0) 1000 (.ok sampleReadings)).1.toOption.map
        (fun p => p.cpuLoad.history)) = some HistKey.cpuLoad := by
  exact ⟨by decide, rfl⟩

/-- Amended claim C3: a returned snapshot is *not* an isolated copy.  Its
history fields are references to the live rolling arrays (every snapshot's
`cpuLoad.history` is the same `cpuLoad` reference), and after a subsequent
collection cycle the contents seen through a previously returned snapshot's
history reference are the updated array: the old window contents with the
new cycle's point pushed by `pushRolling`. -/
theorem snapshot_histories_alias (cfg : Config) (st : ServerState)
    (now1 now2 : ℤ) (r1 r2 : Readings) (p1 : Payload)
    (hp1 : (collectSnapshot cfg st now1 (.ok r1)).1 = .ok p1) :
    p1.cpuLoad.history = HistKey.cpuLoad ∧
    ∃ v, (collectSnapshot cfg (collectSnapshot cfg st now1 (.ok r1)).2 now2
            (.ok r2)).2.history.get p1.cpuLoad.history
        = pushRolling cfg.historyPoints
            ((collectSnapshot cfg st now1 (.ok r1)).2.history.get p1.cpuLoad.history)
            ⟨now2, v⟩ := by
  have h := Except.ok.inj hp1
  subst h
  exact ⟨rfl, clamp (numOr0 r2.cpuLoad.currentLoad) 0 100, rfl⟩

/-- Witness for the amended C3 at a concrete two-cycle run. -/
theorem snapshot_histories_alias_witness :
    ∃ v, (collectSnapshot cfg0 (collectSnapshot cfg0 (initState 0) 1000
            (.ok sampleReadings)).2 2000 (.ok sampleReadings)).2.history.get
          HistKey.cpuLoad
        = pushRolling cfg0.historyPoints
            ((collectSnapshot cfg0 (initState 0) 1000
              (.ok sampleReadings)).2.history.get HistKey.cpuLoad)
            ⟨2000, v⟩ := by
  have h := snapshot_histories_alias cfg0 (initState 0) 1000 2000
    sampleReadings sampleReadings _ rfl
  exact h.2

/-! ### C4: cycle-level failure keeps the previous latest snapshot -/

/-- Claim C4: when the concurrent provider-read batch rejects, the cycle
produces no snapshot, `lastPayload` and the histories are unchanged, the
sampling loop emits a `health:error` event, and a subsequent
`health:request` still answers with the prior latest snapshot. -/
theorem cycle_failure_keeps_latest (cfg : Config) (st : ServerState)
    (now : ℤ) (e : String) :
    (collectSnapshot cfg st now (.error e)).1 = .error e ∧
    (collectSnapshot cfg st now (.error e)).2.lastPayload = st.lastPayload ∧
    (collectSnapshot cfg st now (.error e)).2.history = st.history ∧
    sampleTick cfg st now (.error e)
      = ((collectSnapshot cfg st now (.error e)).2,
          .healthError "Sampling failed" (some e)) ∧
    healthRequest (sampleTick cfg st now (.error e)).1 = healthRequest st ∧
    (∀ p, st.lastPayload = some p →
      healthRequest (sampleTick cfg st now (.error e)).1 = .healthUpdate p) := by
  refine ⟨rfl, rfl, rfl, rfl, rfl, ?_⟩
  intro p hp
  simp [sampleTick, collectSnapshot, healthRequest, hp]

/-- Witness for C4: after one successful cycle, a failed cycle leaves the
prior snapshot served by `health:request`. -/
theorem cycle_failure_keeps_latest_witness :
    healthRequest (sampleTick cfg0
        (collectSnapshot cfg0 (initState 0) 1000 (.ok sampleReadings)).2 2000
        (.error "batch rejected")).1
      = .healthUpdate
          (((collectSnapshot cfg0 (initState 0) 1000
              (.ok sampleReadings)).2.lastPayload).get (by decide)) := by
  exact (cycle_failure_keeps_latest cfg0
    (collectSnapshot cfg0 (initState 0) 1000 (.ok sampleReadings)).2 2000
    "batch rejected").2.2.2.2.2 _ rfl

/-! ### C5: per-field provider gaps are never fatal -/

/-- Claim C5: a collection cycle over any resolved provider batch always
completes, produces a snapshot and stores it as the latest; individual
reads that resolved without usable data only cause that field to take its
null/zero/empty default. -/
theorem field_gap_not_fatal (cfg : Config) (st : ServerState) (now : ℤ)
    (r : Readings) :
    ∃ p, (collectSnapshot cfg st now (.ok r)).1 = .ok p ∧
      (collectSnapshot cfg st now (.ok r)).2.lastPayload = some p ∧
      (r.cpuTemp.main = none → p.cpuTemp.mainC = none) ∧
      (r.mem.total = none → p.memory.usedPercent = 0 ∧ p.memory.totalGB = 0) ∧
      (r.cpuLoad.currentLoad = none → p.cpuLoad.overallPercent = 0) ∧
      (r.time.uptime = none → p.uptime.uptimeSeconds = 0) ∧
      (r.procs = [] → p.topProcesses = []) := by
  refine ⟨_, rfl, rfl, ?_, ?_, ?_, ?_, ?_⟩
  · intro h
    show (match r.cpuTemp.main with
          | some t => if t ≥ 0 then some t else none
          | none => none) = none
    rw [h]
  · intro h
    constructor
    · show (if numOr0 r.mem.total > 0
            then clamp ((numOr0 r.mem.used / numOr0 r.mem.total) * 100) 0 100
            else 0) = 0
      rw [h]
      norm_num
    · show numOr0 r.mem.total / 1024 ^ 3 = 0
      rw [h]
      norm_num
  · intro h
    show clamp (numOr0 r.cpuLoad.currentLoad) 0 100 = 0
    rw [h]
    simp [clamp, numOr0]
  · intro h
    show numOr0 r.time.uptime = 0
    rw [h]
    rfl
  · intro h
    show getTopProcesses r.procs = []
    rw [h]
    simp [getTopProcesses]

/-- Witness for C5: a batch in which every individual read resolved without
usable data still yields a stored snapshot with the default field values. -/
theorem field_gap_not_fatal_witness :
    ∃ p, (collectSnapshot cfg0 (initState 0) 1000 (.ok allFailReadings)).1 = .ok p ∧
      (collectSnapshot cfg0 (initState 0) 1000
          (.ok allFailReadings)).2.lastPayload = some p ∧
      p.cpuTemp.mainC = none ∧ p.memory.usedPercent = 0 ∧
      p.cpuLoad.overallPercent = 0 ∧ p.uptime.uptimeSeconds = 0 ∧
      p.topProcesses = [] := by
  obtain ⟨p, h1, h2, h3, h4, h5, h6, h7⟩ :=
    field_gap_not_fatal cfg0 (initState 0) 1000 allFailReadings
  exact ⟨p, h1, h2, h3 rfl, (h4 rfl).1, h5 rfl, h6 rfl, h7 rfl⟩

/-! ### C6: percentage bounds -/

theorem clamp01 (x : ℚ) : 0 ≤ clamp x 0 100 ∧ clamp x 0 100 ≤ 100 := by
  unfold clamp
  constructor
  · exact le_min (le_max_right x 0) (by norm_num)
  · exact min_le_right _ _

theorem getTopProcesses_mem_bounds (procs : List RawProc) :
    ∀ s ∈ getTopProcesses procs,
      (0 ≤ s.cpuPercent ∧ s.cpuPercent ≤ 100) ∧ 0 ≤ s.ramMB := by
  intro s hs
  have h1 : s ∈ (procs.map normalizeProc).mergeSort procLE :=
    List.mem_of_mem_take hs
  rw [List.mem_mergeSort] at h1
  obtain ⟨proc, _, rfl⟩ := List.mem_map.mp h1
  exact ⟨clamp01 _, le_max_left 0 _⟩

/-- Claim C6: every percentage field of a snapshot produced by a collection
cycle lies in [0, 100]: the overall CPU load, each per-core load, memory
used/free percent, disk used/free percent, and each process CPU percent,
whatever the provider reported. -/
theorem snapshot_percent_bounds (cfg : Config) (st : ServerState) (now : ℤ)
    (r : Readings) (p : Payload)
    (hp : (collectSnapshot cfg st now (.ok r)).1 = .ok p) :
    (0 ≤ p.cpuLoad.overallPercent ∧ p.cpuLoad.overallPercent ≤ 100) ∧
    (∀ x ∈ p.cpuLoad.perCorePercent, 0 ≤ x ∧ x ≤ 100) ∧
    (0 ≤ p.memory.usedPercent ∧ p.memory.usedPercent ≤ 100) ∧
    (0 ≤ p.memory.freePercent ∧ p.memory.freePercent ≤ 100) ∧
    (0 ≤ p.diskUsage.usedPercent ∧ p.diskUsage.usedPercent ≤ 100) ∧
    (0 ≤ p.diskUsage.freePercent ∧ p.diskUsage.freePercent ≤ 100) ∧
    (∀ s ∈ p.topProcesses, 0 ≤ s.cpuPercent ∧ s.cpuPercent ≤ 100) := by
  have h := Except.ok.inj hp
  subst h
  refine ⟨clamp01 _, ?_, ?_, clamp01 _, clamp01 _, clamp01 _, ?_⟩
  · intro x hx
    have hx' : x ∈ r.cpuLoad.cpus.map (fun c => clamp (numOr0 c) 0 100) := hx
    obtain ⟨c, _, rfl⟩ := List.mem_map.mp hx'
    exact clamp01 _
  · show 0 ≤ (if numOr0 r.mem.total > 0
          then clamp ((numOr0 r.mem.used / numOr0 r.mem.total) * 100) 0 100
          else 0) ∧
        (if numOr0 r.mem.total > 0
          then clamp ((numOr0 r.mem.used / numOr0 r.mem.total) * 100) 0 100
          else 0) ≤ 100
    split
    · exact clamp01 _
    · norm_num
  · intro s hs
    exact ((getTopProcesses_mem_bounds r.procs) s hs).1

/-- Witness for C6 at a concrete cycle, including a concrete per-core
membership instance. -/
theorem snapshot_percent_bounds_witness :
    ((collectSnapshot cfg0 (initState 0) 1000 (.ok sampleReadings)).1
      = .ok (((collectSnapshot cfg0 (initState 0) 1000
          (.ok sampleReadings)).2.lastPayload).get (by decide))) ∧
    (50 : ℚ) ∈ (((collectSnapshot cfg0 (initState 0) 1000
        (.ok sampleReadings)).2.lastPayload).get (by decide)).cpuLoad.perCorePercent ∧
    (0 ≤ (50 : ℚ) ∧ (50 : ℚ) ≤ 100) := by
  refine ⟨rfl, by decide, ?_⟩
  exact (snapshot_percent_bounds cfg0 (initState 0) 1000 sampleReadings _
    rfl).2.1 50 (by decide)

/-! ### C7: explicit "no data yet" responses -/

/-- Claim C7: before any successful cycle has stored a snapshot, a socket
`health:request` receives `health:error` with message "No data yet.", and
`GET /api/health/latest` returns HTTP 503 with `{ok: false, message: "No
data yet."}`. -/
theorem no_data_yet_response (st : ServerState) (h : st.lastPayload = none) :
    healthRequest st = .healthError "No data yet." none ∧
    apiHealthLatest st = { status := 503, body := .errorBody false "No data yet." } := by
  constructor
  · show (match st.lastPayload with
          | some p => Event.healthUpdate p
          | none => Event.healthError "No data yet." none) = _
    rw [h]
  · show (match st.lastPayload with
          | none => ({ status := 503, body := .errorBody false "No data yet." } : HttpResponse)
          | some p => { status := 200, body := .snapshotBody p }) = _
    rw [h]

/-- Witness for C7 at the freshly started server state. -/
theorem no_data_yet_response_witness :
    (initState 0).lastPayload = none ∧
    healthRequest (initState 0) = .healthError "No data yet." none ∧
    apiHealthLatest (initState 0)
      = { status := 503, body := .errorBody false "No data yet." } := by
  have h := no_data_yet_response (initState 0) rfl
  exact ⟨rfl, h.1, h.2⟩

/-! ### C8: temperature is null, not zero; its window skips appending -/

/-- Claim C8: when the CPU temperature reading is unavailable (non-numeric
or negative), the snapshot's `cpuTemp.mainC` is `null` — not 0 — and the
temperature rolling window is not appended to for that cycle, while
percentage and rate windows are appended (their absent readings defaulting
to 0). -/
theorem temperature_null_skips_window (cfg : Config) (st : ServerState)
    (now : ℤ) (r : Readings)
    (h : r.cpuTemp.main = none ∨ ∃ q, r.cpuTemp.main = some q ∧ q < 0) :
    ∃ p, (collectSnapshot cfg st now (.ok r)).1 = .ok p ∧
      p.cpuTemp.mainC = none ∧
      (collectSnapshot cfg st now (.ok r)).2.history.cpuTempC
        = st.history.cpuTempC ∧
      (collectSnapshot cfg st now (.ok r)).2.history.cpuLoad
        = pushRolling cfg.historyPoints st.history.cpuLoad
            ⟨now, p.cpuLoad.overallPercent⟩ ∧
      (collectSnapshot cfg st now (.ok r)).2.history.memUsedPercent
        = pushRolling cfg.historyPoints st.history.memUsedPercent
            ⟨now, p.memory.usedPercent⟩ ∧
      (collectSnapshot cfg st now (.ok r)).2.history.diskReadMBps
        = pushRolling cfg.historyPoints st.history.diskReadMBps
            ⟨now, p.diskActivity.readMBps⟩ ∧
      (collectSnapshot cfg st now (.ok r)).2.history.diskWriteMBps
        = pushRolling cfg.historyPoints st.history.diskWriteMBps
            ⟨now, p.diskActivity.writeMBps⟩ ∧
      (collectSnapshot cfg st now (.ok r)).2.history.netDownMBps
        = pushRolling cfg.historyPoints st.history.netDownMBps
            ⟨now, p.network.downMBps⟩ ∧
      (collectSnapshot cfg st now (.ok r)).2.history.netUpMBps
        = pushRolling cfg.historyPoints st.history.netUpMBps
            ⟨now, p.network.upMBps⟩ ∧
      (r.cpuLoad.currentLoad = none → p.cpuLoad.overallPercent = 0) ∧
      (r.mem.total = none → p.memory.usedPercent = 0) := by
  have hmt : (match r.cpuTemp.main with
      | some t => if t ≥ 0 then some t else none
      | none => none) = (none : Option ℚ) := by
    rcases h with h | ⟨q, hq, hql⟩
    · rw [h]
    · rw [hq]
      simp only [if_neg (not_le.mpr hql)]
  refine ⟨_, rfl, ?_, ?_, rfl, rfl, rfl, rfl, rfl, rfl, ?_, ?_⟩
  · exact hmt
  · show (match (match r.cpuTemp.main with
          | some t => if t ≥ 0 then some t else none
          | none => none) with
        | some t => pushRolling cfg.historyPoints st.history.cpuTempC ⟨now, t⟩
        | none => st.history.cpuTempC) = st.history.cpuTempC
    rw [hmt]
  · intro h'
    show clamp (numOr0 r.cpuLoad.currentLoad) 0 100 = 0
    rw [h']
    simp [clamp, numOr0]
  · intro h'
    show (if numOr0 r.mem.total > 0
          then clamp ((numOr0 r.mem.used / numOr0 r.mem.total) * 100) 0 100
          else 0) = 0
    rw [h']
    norm_num

/-- Witness for C8 at a concrete cycle whose temperature read resolved
without usable data. -/
theorem temperature_null_skips_window_witness :
    ∃ p, (collectSnapshot cfg0 (initState 0) 1000 (.ok tempFailReadings)).1 = .ok p ∧
      p.cpuTemp.mainC = none ∧
      (collectSnapshot cfg0 (initState 0) 1000
          (.ok tempFailReadings)).2.history.cpuTempC
        = (initState 0).history.cpuTempC ∧
      (collectSnapshot cfg0 (initState 0) 1000
          (.ok tempFailReadings)).2.history.cpuLoad
        = pushRolling cfg0.historyPoints (initState 0).history.cpuLoad
            ⟨1000, p.cpuLoad.overallPercent⟩ := by
  obtain ⟨p, h1, h2, h3, h4, _⟩ := temperature_null_skips_window cfg0
    (initState 0) 1000 tempFailReadings (Or.inl rfl)
  exact ⟨p, h1, h2, h3, h4⟩

/-! ### C9: top-process selection -/

theorem procLE_trans : ∀ a b c : ProcessSample, procLE a b → procLE b c → procLE a c := by
  intro a b c hab hbc
  simp only [procLE, decide_eq_true_eq] at hab hbc ⊢
  exact le_trans hbc hab

theorem procLE_total : ∀ a b : ProcessSample, procLE a b || procLE b a := by
  intro a b
  simp only [procLE, Bool.or_eq_true, decide_eq_true_eq]
  exact le_total b.cpuPercent a.cpuPercent

/-- Claim C9: `getTopProcesses` returns at most 5 entries, sorted by CPU
percent descending; the list is the 5-prefix of a stable descending sort of
the normalized provider list (elements with any given CPU percent appear in
exactly their provider order); and every entry has CPU percent in [0, 100]
and resident memory at least 0. -/
theorem top_processes_correct (procs : List RawProc) :
    (getTopProcesses procs).length ≤ 5 ∧
    (getTopProcesses procs).Pairwise (fun a b => b.cpuPercent ≤ a.cpuPercent) ∧
    (∀ s ∈ getTopProcesses procs,
      (0 ≤ s.cpuPercent ∧ s.cpuPercent ≤ 100) ∧ 0 ≤ s.ramMB) ∧
    (∃ full : List ProcessSample, getTopProcesses procs = full.take 5 ∧
      full.Pairwise (fun a b => b.cpuPercent ≤ a.cpuPercent) ∧
      ∀ q : ℚ, full.filter (fun s => decide (s.cpuPercent = q))
        = (procs.map normalizeProc).filter (fun s => decide (s.cpuPercent = q))) := by
  have hsorted : ((procs.map normalizeProc).mergeSort procLE).Pairwise
      (fun a b => procLE a b = true) :=
    List.sorted_mergeSort procLE_trans procLE_total _
  have hsorted' : ((procs.map normalizeProc).mergeSort procLE).Pairwise
      (fun a b => b.cpuPercent ≤ a.cpuPercent) :=
    hsorted.imp (fun h => by simpa [procLE, decide_eq_true_eq] using h)
  refine ⟨List.length_take_le 5 _,
    List.Pairwise.sublist (List.take_sublist 5 _) hsorted',
    getTopProcesses_mem_bounds procs, ?_⟩
  refine ⟨(procs.map normalizeProc).mergeSort procLE, rfl, hsorted', ?_⟩
  intro q
  have hc : (((procs.map normalizeProc).filter
      (fun s => decide (s.cpuPercent = q))).Pairwise (fun a b => procLE a b = true)) := by
    apply List.pairwise_of_forall_mem_list
    intro a ha b hb
    have ha' := (List.mem_filter.mp ha).2
    have hb' := (List.mem_filter.mp hb).2
    simp only [decide_eq_true_eq] at ha' hb'
    simp only [procLE, ha', hb', decide_eq_true_eq, le_refl]
  have hsub : List.Sublist
      ((procs.map normalizeProc).filter (fun s => decide (s.cpuPercent = q)))
      ((procs.map normalizeProc).mergeSort procLE) :=
    List.sublist_mergeSort procLE_trans procLE_total hc
      (List.filter_sublist (procs.map normalizeProc))
  have h2 : List.Sublist
      ((procs.map normalizeProc).filter (fun s => decide (s.cpuPercent = q)))
      (((procs.map normalizeProc).mergeSort procLE).filter
        (fun s => decide (s.cpuPercent = q))) := by
    have h3 := hsub.filter (fun s => decide (s.cpuPercent = q))
    rwa [List.filter_eq_self.mpr (fun a ha => (List.mem_filter.mp ha).2)] at h3
  have hperm : List.Perm
      (((procs.map normalizeProc).mergeSort procLE).filter
        (fun s => decide (s.cpuPercent = q)))
      ((procs.map normalizeProc).filter (fun s => decide (s.cpuPercent = q))) :=
    (List.mergeSort_perm (procs.map normalizeProc) procLE).filter
      (fun s => decide (s.cpuPercent = q))
  exact (h2.eq_of_length hperm.length_eq.symm).symm

/-- A concrete process entry. -/
def procW : RawProc :=
  { pid := 7, name := some "node", command := none,
    cpu := some 12, mem_rss := some 1048576 }

/-- Witness for C9 at a concrete one-element process list. -/
theorem top_processes_correct_witness :
    normalizeProc procW ∈ getTopProcesses [procW] ∧
    ((0 ≤ (normalizeProc procW).cpuPercent ∧
      (normalizeProc procW).cpuPercent ≤ 100) ∧
      0 ≤ (normalizeProc procW).ramMB) := by
  have h1 : getTopProcesses [procW] = [normalizeProc procW] := by
    unfold getTopProcesses
    rw [List.map_cons, List.map_nil, List.mergeSort_singleton]
    rfl
  have hmem : normalizeProc procW ∈ getTopProcesses [procW] := by
    rw [h1]
    exact List.mem_singleton.mpr rfl
  exact ⟨hmem, (top_processes_correct [procW]).2.2.1 _ hmem⟩

/-! ### C10: numeric safety of the snapshot arithmetic -/

/-- Claim C10: in the exact-arithmetic model no snapshot field is ever an
undefined number: missing or non-numeric provider fields are coerced to 0
before any clamping or arithmetic (replacing such a field by a literal 0
yields the identical snapshot and state), and the percent computations
guard their denominators — a zero total filesystem size or zero total
memory yields 0 rather than a division by zero. -/
theorem snapshot_numeric_safety (cfg : Config) (st : ServerState) (now : ℤ)
    (r : Readings) :
    ((getDiskUsagePercent r.fsList).totalBytes = 0 →
      (getDiskUsagePercent r.fsList).usedPercent = 0) ∧
    (numOr0 r.mem.total = 0 →
      ∃ p, (collectSnapshot cfg st now (.ok r)).1 = .ok p ∧
        p.memory.usedPercent = 0 ∧ p.memory.totalGB = 0) ∧
    (r.mem.used = none →
      collectSnapshot cfg st now (.ok r)
        = collectSnapshot cfg st now
            (.ok { r with mem := { r.mem with used := some 0 } })) ∧
    (r.cpuLoad.currentLoad = none →
      collectSnapshot cfg st now (.ok r)
        = collectSnapshot cfg st now
            (.ok { r with cpuLoad := { r.cpuLoad with currentLoad := some 0 } })) := by
  refine ⟨?_, ?_, ?_, ?_⟩
  · intro h
    simp only [getDiskUsagePercent] at h ⊢
    rw [h]
    norm_num
  · intro h
    refine ⟨_, rfl, ?_, ?_⟩
    · show (if numOr0 r.mem.total > 0
            then clamp ((numOr0 r.mem.used / numOr0 r.mem.total) * 100) 0 100
            else 0) = 0
      rw [h]
      norm_num
    · show numOr0 r.mem.total / 1024 ^ 3 = 0
      rw [h]
      norm_num
  · intro h
    obtain ⟨cl, cs, ct, m, fs, dio, ns, t, pr⟩ := r
    obtain ⟨mt, mu⟩ := m
    have h' : mu = none := h
    subst h'
    rfl
  · intro h
    obtain ⟨cl, cs, ct, m, fs, dio, ns, t, pr⟩ := r
    obtain ⟨curLoad, cpus⟩ := cl
    have h' : curLoad = none := h
    subst h'
    rfl

/-- Witness for C10 at a concrete all-missing provider batch. -/
theorem snapshot_numeric_safety_witness :
    (getDiskUsagePercent allFailReadings.fsList).totalBytes = 0 ∧
    (getDiskUsagePercent allFailReadings.fsList).usedPercent = 0 ∧
    numOr0 allFailReadings.mem.total = 0 ∧
    collectSnapshot cfg0 (initState 0) 1000 (.ok allFailReadings)
      = collectSnapshot cfg0 (initState 0) 1000
          (.ok { allFailReadings with
                  mem := { allFailReadings.mem with used := some 0 } }) := by
  have h := snapshot_numeric_safety cfg0 (initState 0) 1000 allFailReadings
  exact ⟨rfl, h.1 rfl, rfl, h.2.2.1 rfl⟩

end SysHealth
